import Mathlib

/-!
Shallow embedding of the forecasting core of `src/ml-service/app.py`
(monitorSDK-Platform).  Series values are modelled as rationals (`ℚ`);
fallible Python code (raising `ValueError` and friends) is modelled with
`Except Err`.  The numeric fitting of the external regression library
(sklearn `LinearRegression.fit` / keras `Model.fit`) is abstracted as an
injected function; everything else follows the source line by line.
-/

namespace MlService

/-- Error taxonomy of the service (the Python code raises `ValueError`s with
distinct messages; library-level failures are `shapeError` / `notFitted` /
`modelTraining`).  `emptyData` is the dedicated endpoint check for an empty
`historicalData` list. -/
inductive Err where
  | emptyData
  | insufficientData
  | lengthMismatch
  | untrainedModel
  | notFitted
  | shapeError
  | modelTraining
  | dateParse
  deriving DecidableEq, Repr

/-- Decidable equality of `Except` results (constructor-level comparison). -/
instance {e a : Type} [DecidableEq e] [DecidableEq a] : DecidableEq (Except e a) := fun x y =>
  match x, y with
  | .ok u, .ok v =>
    if h : u = v then isTrue (by rw [h]) else isFalse (by simp [h])
  | .error u, .error v =>
    if h : u = v then isTrue (by rw [h]) else isFalse (by simp [h])
  | .ok _, .error _ => isFalse (by simp)
  | .error _, .ok _ => isFalse (by simp)

/-- Python `l[-n:]`: the trailing `min n (length l)` elements of `l`. -/
def tailSlice (n : ℕ) (l : List ℚ) : List ℚ :=
  l.drop (l.length - n)

/-- Minimum of a nonempty list (the numpy column minimum inside
`MinMaxScaler.fit`); the `[]` case is a dead default, the callers guard
nonemptiness. -/
def listMin : List ℚ → ℚ
  | [] => 0
  | x :: xs => xs.foldl min x

/-- Maximum of a nonempty list (the numpy column maximum inside
`MinMaxScaler.fit`). -/
def listMax : List ℚ → ℚ
  | [] => 0
  | x :: xs => xs.foldl max x

/-- Fitted state of the sklearn scaler `MinMaxScaler(feature_range=(0, 1))`:
the (min, max) of the column seen at fit time. -/
structure Scaler where
  dataMin : ℚ
  dataMax : ℚ
  deriving DecidableEq, Repr

/-- the sklearn helper `_handle_zeros_in_scale`: the scale denominator, with a zero
range replaced by 1 so the degenerate min==max case never divides by zero. -/
def Scaler.range1 (sc : Scaler) : ℚ :=
  if sc.dataMax - sc.dataMin = 0 then 1 else sc.dataMax - sc.dataMin

/-- Embeds `MinMaxScaler.transform` on one value: `(v - min) / (max - min)`
(with the zero-range guard). -/
def Scaler.transform1 (sc : Scaler) (v : ℚ) : ℚ :=
  (v - sc.dataMin) / sc.range1

/-- Embeds `MinMaxScaler.inverse_transform` on one value: `v * (max - min) + min`. -/
def Scaler.inverse1 (sc : Scaler) (v : ℚ) : ℚ :=
  v * sc.range1 + sc.dataMin

/-- The fit step of `MinMaxScaler.fit_transform`: record the column min/max. -/
def Scaler.fitList (xs : List ℚ) : Scaler :=
  ⟨listMin xs, listMax xs⟩

/-- The sliding-window loop of `TimeSeriesPredictor.prepare_data`
(app.py lines 71-75): for `i` in `[lookback, len series)` the input is the
slice `series[i-lookback:i]` and the target is `series[i]`. -/
def buildWindows (series : List ℚ) (lookback : ℕ) : List (List ℚ) × List ℚ :=
  ((List.range (series.length - lookback)).map fun k => (series.drop k).take lookback,
   (List.range (series.length - lookback)).map fun k => series.getD (k + lookback) 0)

/-- The window-building contract of `prepare_data` viewed on an
already-normalized series: the length guard of line 62 followed by the
sliding-window loop (scaling preserves length, so guarding the raw series
and guarding the scaled one coincide). -/
def windowBuild (series : List ℚ) (lookback : ℕ) : Except Err (List (List ℚ) × List ℚ) :=
  if series.length < lookback + 1 then .error .insufficientData
  else .ok (buildWindows series lookback)

/-- Embeds `TimeSeriesPredictor.prepare_data`: guard the length, fit the scaler on
the whole series (`fit_transform`), then build the windows over the scaled
series.  Returns the freshly fitted scaler state alongside the pairs. -/
def prepare_data (data : List ℚ) (lookback : ℕ) :
    Except Err (Scaler × List (List ℚ) × List ℚ) :=
  if data.length < lookback + 1 then .error .insufficientData
  else
    let sc := Scaler.fitList data
    .ok (sc, buildWindows (data.map sc.transform1) lookback)

/-- A fitted linear model (sklearn `LinearRegression` after `fit`):
coefficient vector and intercept. -/
structure LinearModel where
  coef : List ℚ
  intercept : ℚ
  deriving DecidableEq, Repr

/-- Dot product of two lists (numpy `X @ coef`). -/
def dotProd (xs ys : List ℚ) : ℚ :=
  ((xs.zip ys).map fun p => p.1 * p.2).sum

/-- The prediction formula of a fitted linear model on one window. -/
def LinearModel.apply (m : LinearModel) (w : List ℚ) : ℚ :=
  dotProd w m.coef + m.intercept

/-- Embeds `model.predict` on one window: sklearn validates the feature count
against the fitted one and raises a `ValueError` on mismatch (the keras
path likewise fails in the `reshape(1, 7, 1)` on a wrong-sized window). -/
def LinearModel.predictOne (m : LinearModel) (w : List ℚ) : Except Err ℚ :=
  if w.length = m.coef.length then .ok (m.apply w) else .error .shapeError

/-- The `self.model` attribute: absent (`None`), or an installed model
instance that is unfitted (`build_model` ran but `fit` failed) or fitted. -/
inductive ModelSlot where
  | unfitted
  | fitted (m : LinearModel)
  deriving DecidableEq, Repr

/-- Calling `.predict` on the installed model instance: an unfitted
instance raises the sklearn `NotFittedError`. -/
def ModelSlot.predictOne : ModelSlot → List ℚ → Except Err ℚ
  | .unfitted, _ => .error .notFitted
  | .fitted m, w => m.predictOne w

/-- The mutable state of `TimeSeriesPredictor`: `__init__` installs a fresh
unfitted scaler (`none`) and `self.model = None`. -/
structure TimeSeriesPredictor where
  model_type : String
  scaler : Option Scaler
  model : Option ModelSlot
  deriving DecidableEq, Repr

/-- Embeds `TimeSeriesPredictor(model_type)`. -/
def TimeSeriesPredictor.init (model_type : String) : TimeSeriesPredictor :=
  ⟨model_type, none, none⟩

/-- The external-library `build_model` + `fit` on the window pairs,
abstracted: it may fail (numeric-library failure) or produce a fitted model. -/
def FitFn : Type :=
  List (List ℚ) → List ℚ → Except Err LinearModel

/-- Embeds `TimeSeriesPredictor.train` (app.py lines 103-124): run `prepare_data`
(which fits `self.scaler`), install a model instance, fit it; every failure
is caught and reported as the boolean result.  Note the source assigns
`self.model` before calling `fit`, so a fit failure leaves an unfitted
instance installed. -/
def TimeSeriesPredictor.train (p : TimeSeriesPredictor) (fit_model : FitFn)
    (data : List ℚ) : Bool × TimeSeriesPredictor :=
  match prepare_data data 7 with
  | .error _ => (false, p)
  | .ok (sc, X, y) =>
    match fit_model X y with
    | .ok m => (true, { p with scaler := some sc, model := some (.fitted m) })
    | .error _ => (false, { p with scaler := some sc, model := some .unfitted })

/-- The autoregressive loop of `TimeSeriesPredictor.predict` (lines
147-160): `days` times, predict from the trailing 7 values of the running
sequence and append the prediction to it; collects the normalized
predictions in order. -/
def predictLoop (slot : ModelSlot) (current : List ℚ) : ℕ → Except Err (List ℚ)
  | 0 => .ok []
  | n + 1 =>
    match slot.predictOne (tailSlice 7 current) with
    | .error e => .error e
    | .ok v =>
      match predictLoop slot (current ++ [v]) n with
      | .error e => .error e
      | .ok rest => .ok (v :: rest)

/-- Embeds `TimeSeriesPredictor.predict` (app.py lines 126-166): untrained-model
check, normalize the trailing 7 values with the scaler fitted at train time,
run the autoregressive loop, inverse-transform the whole batch, clamp each
value to be nonnegative.  There is no other explicit check. -/
def TimeSeriesPredictor.predict (p : TimeSeriesPredictor) (data : List ℚ)
    (days : ℕ) : Except Err (List ℚ) :=
  match p.model with
  | none => .error .untrainedModel
  | some slot =>
    match p.scaler with
    | none => .error .notFitted
    | some sc =>
      let lastSequenceScaled := (tailSlice 7 data).map sc.transform1
      match predictLoop slot lastSequenceScaled days with
      | .error e => .error e
      | .ok preds => .ok ((preds.map sc.inverse1).map fun v => max 0 v)

/-- Embeds `calculate_conversion_rate` (app.py lines 169-181): equal-length check,
then per-day `uv / pv` when `pv > 0` else `0`. -/
def calculate_conversion_rate (pv_data uv_data : List ℚ) : Except Err (List ℚ) :=
  if pv_data.length ≠ uv_data.length then .error .lengthMismatch
  else .ok ((pv_data.zip uv_data).map fun t => if t.1 > 0 then t.2 / t.1 else 0)

/-! ### Calendar dates and `datetime.strptime` for the formats the service tries

The endpoints parse the date of the last record with `datetime.strptime` against a
fixed list of format strings.  We embed the CPython `_strptime` matching for the
directives these formats use: `%Y` is exactly four digits; `%m`, `%d`, `%H`,
`%M`, `%S` are one or two digits constrained to their ranges; `%f` is one to
six digits; the whole string must be consumed; finally the `datetime`
constructor validates the day against the month length.  (CPython also lets
`%S` match 60/61, which the constructor then rejects — the net effect, the
format failing, is the same as rejecting 60+ at match time.) -/

/-- A calendar date (the time-of-day fields are parsed, validated and
discarded: the service only ever formats `%Y-%m-%d`). -/
structure Date where
  y : ℕ
  m : ℕ
  d : ℕ
  deriving DecidableEq, Repr

/-- Gregorian leap year (as in the Python `datetime` module). -/
def isLeap (y : ℕ) : Bool :=
  y % 4 = 0 && (y % 100 ≠ 0 || y % 400 = 0)

/-- Length of month `m` in year `y`. -/
def daysInMonth (y m : ℕ) : ℕ :=
  if m = 2 then (if isLeap y then 29 else 28)
  else if m = 4 ∨ m = 6 ∨ m = 9 ∨ m = 11 then 30
  else 31

/-- The validation done by the `datetime` constructor after a regex match:
the year is positive and the day exists in the month (month range and a
positive day are already guaranteed by the match). -/
def dateOk (y m d : ℕ) : Bool :=
  1 ≤ y && d ≤ daysInMonth y m

/-- Value of a decimal digit character. -/
def digitVal (c : Char) : Option ℕ :=
  if c.isDigit then some (c.toNat - 48) else none

/-- Directive `%Y`: exactly four digits. -/
def parse4 : List Char → Option (ℕ × List Char)
  | a :: b :: c :: d :: rest =>
    match digitVal a, digitVal b, digitVal c, digitVal d with
    | some x, some y, some z, some w => some (((x * 10 + y) * 10 + z) * 10 + w, rest)
    | _, _, _, _ => none
  | _ => none

/-- A one-or-two-digit numeric directive: take two digits when their value
lies in `[twoLo, twoHi]`, otherwise fall back to a single digit in
`[oneLo, oneHi]` (mirrors the alternation in the CPython `_strptime` regexes,
which never needs further backtracking in the formats used here because a
non-digit separator always follows). -/
def parseNum2 (twoLo twoHi oneLo oneHi : ℕ) : List Char → Option (ℕ × List Char)
  | [] => none
  | [c] =>
    match digitVal c with
    | some a => if oneLo ≤ a ∧ a ≤ oneHi then some (a, []) else none
    | none => none
  | c1 :: c2 :: rest =>
    match digitVal c1, digitVal c2 with
    | some a, some b =>
      let v := 10 * a + b
      if twoLo ≤ v ∧ v ≤ twoHi then some (v, rest)
      else if oneLo ≤ a ∧ a ≤ oneHi then some (a, c2 :: rest)
      else none
    | some a, none =>
      if oneLo ≤ a ∧ a ≤ oneHi then some (a, c2 :: rest) else none
    | none, _ => none

/-- Consume up to `n` further digits (greedy tail of `%f`). -/
def dropDigits : ℕ → List Char → List Char
  | 0, cs => cs
  | _ + 1, [] => []
  | n + 1, c :: rest => if c.isDigit then dropDigits n rest else c :: rest

/-- Directive `%f`: one to six digits, greedily. -/
def parseFrac : List Char → Option (List Char)
  | [] => none
  | c :: rest =>
    match digitVal c with
    | some _ => some (dropDigits 5 rest)
    | none => none

/-- Match one literal character. -/
def expectChar (c : Char) : List Char → Option (List Char)
  | [] => none
  | x :: rest => if x = c then some rest else none

/-- The `%Y-%m-%d` prefix common to all five formats. -/
def parseYmd (cs : List Char) : Option ((ℕ × ℕ × ℕ) × List Char) :=
  match parse4 cs with
  | none => none
  | some (y, cs) =>
    match expectChar '-' cs with
    | none => none
    | some cs =>
      match parseNum2 1 12 1 9 cs with
      | none => none
      | some (m, cs) =>
        match expectChar '-' cs with
        | none => none
        | some cs =>
          match parseNum2 1 31 1 9 cs with
          | none => none
          | some (d, cs) => some ((y, m, d), cs)

/-- Time part `%H:%M:%S` (values validated and discarded). -/
def parseHMS (cs : List Char) : Option (List Char) :=
  match parseNum2 0 23 0 9 cs with
  | none => none
  | some (_, cs) =>
    match expectChar ':' cs with
    | none => none
    | some cs =>
      match parseNum2 0 59 0 9 cs with
      | none => none
      | some (_, cs) =>
        match expectChar ':' cs with
        | none => none
        | some cs => (parseNum2 0 59 0 9 cs).map fun t => t.2

/-- The five format strings tried by the endpoints, in source order
(app.py lines 242-248). -/
inductive DateFmt where
  | ymd        -- format %Y-%m-%d
  | isoNoFrac  -- format %Y-%m-%dT%H:%M:%S
  | isoFrac    -- format %Y-%m-%dT%H:%M:%S.%f
  | isoFracZ   -- format %Y-%m-%dT%H:%M:%S.%fZ
  | spaceDT    -- format %Y-%m-%d %H:%M:%S
  deriving DecidableEq, Repr

/-- Embeds `datetime.strptime(s, fmt)` for the five formats: full-string match,
then constructor validation. -/
def strptimeFmt (f : DateFmt) (s : String) : Option Date :=
  match parseYmd s.toList with
  | none => none
  | some ((y, m, d), cs) =>
    let rest : Option (List Char) :=
      match f with
      | .ymd => some cs
      | .isoNoFrac => (expectChar 'T' cs).bind parseHMS
      | .isoFrac =>
        (((expectChar 'T' cs).bind parseHMS).bind (expectChar '.')).bind parseFrac
      | .isoFracZ =>
        ((((expectChar 'T' cs).bind parseHMS).bind (expectChar '.')).bind parseFrac).bind
          (expectChar 'Z')
      | .spaceDT => (expectChar ' ' cs).bind parseHMS
    match rest with
    | some [] => if dateOk y m d then some ⟨y, m, d⟩ else none
    | _ => none

/-- The `date_formats` list of the source, in order. -/
def date_formats : List DateFmt :=
  [.ymd, .isoNoFrac, .isoFrac, .isoFracZ, .spaceDT]

/-- The `for fmt in date_formats: try/break` loop: first format that parses
wins. -/
def tryFormatsFirst : List DateFmt → String → Option Date
  | [], _ => none
  | f :: fs, s =>
    match strptimeFmt f s with
    | some d => some d
    | none => tryFormatsFirst fs s

/-- Python `s.split(c)[0]`: the prefix of `s` before the first occurrence
of `c`. -/
def splitHead (c : Char) (s : String) : String :=
  String.mk (s.toList.takeWhile fun x => x ≠ c)

/-- The fallback of app.py lines 258-265:
`last_date_str.split('T')[0].split(' ')[0]` re-parsed as `%Y-%m-%d`. -/
def stripDatePart (s : String) : String :=
  splitHead ' ' (splitHead 'T' s)

/-- The whole date-parsing block of the endpoints: ordered formats, then the
strip-and-retry fallback; `none` means the `DateParseError` is raised. -/
def parseLastDate (s : String) : Option Date :=
  match tryFormatsFirst date_formats s with
  | some d => some d
  | none => strptimeFmt .ymd (stripDatePart s)

/-- One calendar day later (Python `timedelta(days=1)` addition). -/
def Date.succDay (dt : Date) : Date :=
  if dt.d < daysInMonth dt.y dt.m then ⟨dt.y, dt.m, dt.d + 1⟩
  else if dt.m < 12 then ⟨dt.y, dt.m + 1, 1⟩
  else ⟨dt.y + 1, 1, 1⟩

/-- Embeds `last_date + timedelta(days=n)`. -/
def Date.addDays (dt : Date) : ℕ → Date
  | 0 => dt
  | n + 1 => dt.succDay.addDays n

/-- Left-pad a numeral with zeros to width `w`. -/
def padZeros (w n : ℕ) : String :=
  String.mk (List.replicate (w - (toString n).length) '0') ++ toString n

/-- Embeds `strftime` with the plain-date format `%Y-%m-%d`. -/
def formatDate (dt : Date) : String :=
  padZeros 4 dt.y ++ "-" ++ padZeros 2 dt.m ++ "-" ++ padZeros 2 dt.d

/-- The `prediction_dates` generation of the endpoints (lines 258-270):
parse the date of the last record (raising `DateParseError` when even the
fallback fails), then format `last_date + 1 .. last_date + days`. -/
def generateDates (last_date_str : String) (days : ℕ) : Except Err (List String) :=
  match parseLastDate last_date_str with
  | none => .error .dateParse
  | some d => .ok ((List.range days).map fun i => formatDate (d.addDays (i + 1)))

/-! ### Request orchestration: the `/predict` and `/predict/batch` handlers

Both handlers are embedded as pure functions; alongside the HTTP response we
return the number of `TimeSeriesPredictor.train` invocations the handler
performed, so that "no model is trained" claims are statable. -/

/-- One element of `historicalData`: the date string plus the numeric fields
(`pv`, `uv`, possibly others) as an association list. -/
structure HistRecord where
  date : String
  fields : List (String × ℚ)
  deriving DecidableEq, Repr

/-- Python `item.get(key, 0)` on the numeric fields. -/
def HistRecord.getF (r : HistRecord) (key : String) : ℚ :=
  match r.fields.find? fun kv => kv.1 = key with
  | some kv => kv.2
  | none => 0

/-- The metric-extraction block shared by both handlers (app.py lines
218-224 and 334-339): `conversion_rate` is derived from the element-wise
`pv` and `uv` extractions, any other metric name is extracted directly with
default `0`. -/
def resolveMetric (metric_type : String) (hist : List HistRecord) : Except Err (List ℚ) :=
  if metric_type = "conversion_rate" then
    calculate_conversion_rate (hist.map fun r => r.getF "pv")
      (hist.map fun r => r.getF "uv")
  else
    .ok (hist.map fun r => r.getF metric_type)

/-- The Python builtin `round` in exact arithmetic: round half to even. -/
def pyRound (q : ℚ) : ℤ :=
  let f : ℤ := ⌊q⌋
  if q - (f : ℚ) < 1 / 2 then f
  else if (1 : ℚ) / 2 < q - (f : ℚ) then f + 1
  else if f % 2 = 0 then f else f + 1

/-- Embeds `round(value, 4)` in exact arithmetic. -/
def round4 (q : ℚ) : ℚ :=
  ((pyRound (q * 10000) : ℤ) : ℚ) / 10000

/-- Embeds `format_prediction_value` / `format_batch_value`: `pv` and `uv` round to
an integer, every other metric to four decimal places. -/
def formatValue (metric_type : String) (v : ℚ) : ℚ :=
  if metric_type = "pv" ∨ metric_type = "uv" then ((pyRound v : ℤ) : ℚ) else round4 v

/-- Embeds the access to the date of the last record (the callers guard nonemptiness; the empty
default is dead code). -/
def lastDateStr (hist : List HistRecord) : String :=
  match hist.getLast? with
  | some r => r.date
  | none => ""

/-- HTTP outcome of a handler, with just the payload parts the spec talks
about. -/
inductive Resp where
  /-- HTTP 400 with `{success: false, error}`. -/
  | err400 (e : Err)
  /-- HTTP 500 with `{success: false, error}`. -/
  | err500 (e : Err)
  /-- HTTP 200 from `/predict`: predictions as (date, value) pairs, the echoed
  last-14 records, and `modelInfo.trainingSamples`. -/
  | ok200 (predictions : List (String × ℚ)) (histEcho : List HistRecord)
      (trainingSamples : ℕ)
  /-- HTTP 200 from `/predict/batch`: the per-metric results map in insertion
  order; a metric maps to `none` when the handler stored `null` for it. -/
  | okBatch (results : List (String × Option (List (String × ℚ))))
  deriving DecidableEq

/-- Is the response an HTTP 400? -/
def Resp.is400 : Resp → Bool
  | .err400 _ => true
  | _ => false

/-- The `/predict` handler (app.py lines 194-310), from the point where the
request fields are in hand.  Second component: how many times
`TimeSeriesPredictor.train` ran. -/
def predictRoute (fit_model : FitFn) (metric_type model_type : String) (days : ℕ)
    (hist : List HistRecord) : Resp × ℕ :=
  if hist = [] then (.err400 .emptyData, 0)
  else if hist.length < 14 then (.err400 .insufficientData, 0)
  else
    match resolveMetric metric_type hist with
    | .error e => (.err500 e, 0)
    | .ok metric_data =>
      let tr := (TimeSeriesPredictor.init model_type).train fit_model metric_data
      if tr.1 then
        match tr.2.predict metric_data days with
        | .error e => (.err500 e, 1)
        | .ok preds =>
          match generateDates (lastDateStr hist) days with
          | .error e => (.err500 e, 1)
          | .ok dates =>
            (.ok200 (dates.zip (preds.map fun v => formatValue metric_type v))
              (hist.drop (hist.length - 14)) (metric_data.length - 7), 1)
      else (.err500 .modelTraining, 1)

/-- The body of the per-metric `try` in `/predict/batch` (lines 333-396).
Result: `none` when the loop iteration stored nothing for the metric (train
reported failure), `some none` when an exception was caught and `None` was
stored, `some (some l)` on success.  Second component: `train` invocations. -/
def runMetric (fit_model : FitFn) (days : ℕ) (hist : List HistRecord)
    (metric : String) : Option (Option (List (String × ℚ))) × ℕ :=
  match resolveMetric metric hist with
  | .error _ => (some none, 0)
  | .ok metric_data =>
    let tr := (TimeSeriesPredictor.init "lstm").train fit_model metric_data
    if tr.1 then
      match tr.2.predict metric_data days with
      | .error _ => (some none, 1)
      | .ok preds =>
        match generateDates (lastDateStr hist) days with
        | .error _ => (some none, 1)
        | .ok dates =>
          (some (some (dates.zip (preds.map fun v => formatValue metric v))), 1)
    else (none, 1)

/-- The `results` dict built by the metric loop of `/predict/batch`, in
insertion order, plus the total number of `train` invocations. -/
def batchResults (fit_model : FitFn) (days : ℕ) (hist : List HistRecord) :
    List String → List (String × Option (List (String × ℚ))) × ℕ
  | [] => ([], 0)
  | m :: rest =>
    let r := runMetric fit_model days hist m
    let rs := batchResults fit_model days hist rest
    match r.1 with
    | none => (rs.1, r.2 + rs.2)
    | some v => ((m, v) :: rs.1, r.2 + rs.2)

/-- The `/predict/batch` handler (app.py lines 313-410): its only request
validation is the non-empty check; every per-metric failure is confined to
the loop body. -/
def predict_batch (fit_model : FitFn) (metrics : List String) (days : ℕ)
    (hist : List HistRecord) : Resp × ℕ :=
  if hist = [] then (.err400 .emptyData, 0)
  else
    let rs := batchResults fit_model days hist metrics
    (.okBatch rs.1, rs.2)

/-- Python dict lookup on the embedded insertion-ordered results list
(duplicate metric names store equal values, so first-match lookup agrees
with the dict). -/
def dictLookup (l : List (String × Option (List (String × ℚ)))) (k : String) :
    Option (Option (List (String × ℚ))) :=
  match l with
  | [] => none
  | kv :: rest => if kv.1 = k then some kv.2 else dictLookup rest k

/-! ### Specification-side definitions

These are written from the wording of the specification (not from the source), to
be compared with the source-derived definitions above. -/

/-- From the forecast-algorithm wording of the spec: repeat `days` times —
predict the next normalized value from the current trailing 7-value window,
append it to the running sequence.  Returns the normalized predictions in
order. -/
def autoregressiveSpec (f : List ℚ → ℚ) (window : List ℚ) : ℕ → List ℚ
  | 0 => []
  | n + 1 =>
    let nxt := f (tailSlice 7 window)
    nxt :: autoregressiveSpec f (window ++ [nxt]) n

/-- From the forecast-algorithm wording of the spec: start from the
scaler-normalized last 7 values of the series, run the autoregressive loop,
inverse-transform the whole batch with the one fitted scaler, clamp at 0. -/
def forecastSpec (m : LinearModel) (sc : Scaler) (series : List ℚ) (days : ℕ) :
    List ℚ :=
  ((autoregressiveSpec m.apply (tailSlice 7 (series.map sc.transform1)) days).map
      sc.inverse1).map fun v => max 0 v

/-- From the date-parsing wording of the spec: try the five formats in the stated
order accepting the first that parses; if none parse, strip the string at
the first 'T' or space and retry as a plain date. -/
def parseLastDateSpec (s : String) : Option Date :=
  (strptimeFmt .ymd s).orElse fun _ =>
  (strptimeFmt .isoNoFrac s).orElse fun _ =>
  (strptimeFmt .isoFrac s).orElse fun _ =>
  (strptimeFmt .isoFracZ s).orElse fun _ =>
  (strptimeFmt .spaceDT s).orElse fun _ =>
  strptimeFmt .ymd (String.mk (s.toList.takeWhile fun c => !(c = 'T') && !(c = ' ')))

/-! ### Concrete fixtures for witnesses and counterexamples -/

/-- Does the engine hold a fitted model?  (`self.model` is an instance on
which `fit` succeeded.) -/
def TimeSeriesPredictor.hasFittedModel : TimeSeriesPredictor → Bool
  | ⟨_, _, some (.fitted _)⟩ => true
  | _ => false

/-- A fit that always succeeds with a 7-coefficient zero model (the shape
the sklearn `LinearRegression.fit` produces on 7-wide windows). -/
def constFit : FitFn := fun _ _ => .ok ⟨[0, 0, 0, 0, 0, 0, 0], 0⟩

/-- A fit that fails inside the numeric library. -/
def failFit : FitFn := fun _ _ => .error .modelTraining

/-- An 8-point series (just enough to train). -/
def series8 : List ℚ := [0, 1, 0, 1, 0, 1, 0, 1]

/-- A 9-point series (two training windows). -/
def series9 : List ℚ := [0, 1, 2, 3, 4, 5, 6, 7, 8]

/-- Five historical records (too few to train, but a nonempty batch input). -/
def hist5 : List HistRecord :=
  [⟨"2024-03-01", [("pv", 0), ("uv", 0)]⟩,
   ⟨"2024-03-02", [("pv", 1), ("uv", 1)]⟩,
   ⟨"2024-03-03", [("pv", 0), ("uv", 0)]⟩,
   ⟨"2024-03-04", [("pv", 1), ("uv", 1)]⟩,
   ⟨"2024-03-05", [("pv", 0), ("uv", 0)]⟩]

/-- Ten historical records: fewer than the 14 the single-metric flow
demands, yet more than the 8 training needs. -/
def hist10 : List HistRecord :=
  [⟨"2024-03-01", [("pv", 0), ("uv", 0)]⟩,
   ⟨"2024-03-02", [("pv", 1), ("uv", 1)]⟩,
   ⟨"2024-03-03", [("pv", 0), ("uv", 0)]⟩,
   ⟨"2024-03-04", [("pv", 1), ("uv", 1)]⟩,
   ⟨"2024-03-05", [("pv", 0), ("uv", 0)]⟩,
   ⟨"2024-03-06", [("pv", 1), ("uv", 1)]⟩,
   ⟨"2024-03-07", [("pv", 0), ("uv", 0)]⟩,
   ⟨"2024-03-08", [("pv", 1), ("uv", 1)]⟩,
   ⟨"2024-03-09", [("pv", 0), ("uv", 0)]⟩,
   ⟨"2024-03-10", [("pv", 1), ("uv", 1)]⟩]

/-! ### Helper lemmas -/

lemma tailSlice_length (n : ℕ) (l : List ℚ) : (tailSlice n l).length = min n l.length := by
  simp [tailSlice]; omega

lemma tailSlice_map (n : ℕ) (f : ℚ → ℚ) (l : List ℚ) :
    tailSlice n (l.map f) = (tailSlice n l).map f := by
  simp [tailSlice, List.map_drop]

lemma getD_map_range {a : Type} (g : ℕ → a) (k n : ℕ) (d : a) (h : k < n) :
    ((List.range n).map g).getD k d = g k := by
  simp [List.getD_eq_getElem?_getD, List.getElem?_map, List.getElem?_range h]

lemma takeWhile_takeWhile_and (p q : Char → Bool) (l : List Char) :
    (l.takeWhile p).takeWhile q = l.takeWhile fun c => p c && q c := by
  induction l with
  | nil => simp
  | cons a t ih =>
    by_cases hp : p a <;> by_cases hq : q a <;> simp [List.takeWhile, hp, hq, ih]

lemma range1_ne_zero (sc : Scaler) : sc.range1 ≠ 0 := by
  unfold Scaler.range1; split
  · exact one_ne_zero
  · assumption

lemma inverse1_transform1 (sc : Scaler) (v : ℚ) : sc.inverse1 (sc.transform1 v) = v := by
  simp [Scaler.inverse1, Scaler.transform1, div_mul_cancel₀ _ (range1_ne_zero sc)]

lemma autoregressiveSpec_length (f : List ℚ → ℚ) :
    ∀ (n : ℕ) (w : List ℚ), (autoregressiveSpec f w n).length = n := by
  intro n
  induction n with
  | zero => intro w; rfl
  | succ k ih => intro w; simp [autoregressiveSpec, ih]

lemma predictLoop_fitted (m : LinearModel) (hm : m.coef.length = 7) :
    ∀ (n : ℕ) (cur : List ℚ), 7 ≤ cur.length →
      predictLoop (.fitted m) cur n = .ok (autoregressiveSpec m.apply cur n) := by
  intro n
  induction n with
  | zero => intro cur _; rfl
  | succ k ih =>
    intro cur hcur
    have hw : (tailSlice 7 cur).length = 7 := by
      rw [tailSlice_length]; omega
    have hrec := ih (cur ++ [m.apply (tailSlice 7 cur)]) (by simp; omega)
    simp [predictLoop, ModelSlot.predictOne, LinearModel.predictOne, hw, hm, hrec,
      autoregressiveSpec]

lemma map_inverse1_map_transform1 (sc : Scaler) (l : List ℚ) :
    (l.map sc.transform1).map sc.inverse1 = l := by
  induction l with
  | nil => rfl
  | cons a t ih => simp [ih, inverse1_transform1]

lemma getD_zip_map (f : ℚ × ℚ → ℚ) :
    ∀ (pv uv : List ℚ) (i : ℕ), pv.length = uv.length → i < pv.length →
      ((pv.zip uv).map f).getD i 0 = f (pv.getD i 0, uv.getD i 0) := by
  intro pv
  induction pv with
  | nil => intro uv i _ hi; simp at hi
  | cons a t ih =>
    intro uv i h hi
    cases uv with
    | nil => simp at h
    | cons b u =>
      cases i with
      | zero => simp
      | succ j =>
        simp only [List.zip_cons_cons, List.map_cons, List.getD_cons_succ]
        exact ih u j (by simpa using h) (by simpa using hi)

/-! ### Claim theorems -/

/-- Claim C1: for a trained engine (fitted 7-coefficient model and fitted
scaler) and any `days ≥ 1`, `predict` returns exactly `days` values: the
autoregressive loop described by the spec is run on the scaler-normalized
last-7 window, the normalized batch is inverse-transformed with the one
training-time scaler, and every returned value is clamped to `≥ 0`. -/
theorem forecast_autoregressive (mt : String) (sc : Scaler) (m : LinearModel)
    (series : List ℚ) (days : ℕ) (hm : m.coef.length = 7)
    (hlen : 7 ≤ series.length) (_hdays : 1 ≤ days) :
    TimeSeriesPredictor.predict ⟨mt, some sc, some (.fitted m)⟩ series days
      = .ok (forecastSpec m sc series days)
    ∧ (forecastSpec m sc series days).length = days
    ∧ ∀ v ∈ forecastSpec m sc series days, 0 ≤ v := by
  refine ⟨?_, ?_, ?_⟩
  · have hsl : 7 ≤ ((tailSlice 7 series).map sc.transform1).length := by
      rw [List.length_map, tailSlice_length]; omega
    simp only [TimeSeriesPredictor.predict]
    rw [predictLoop_fitted m hm days _ hsl]
    simp [forecastSpec, tailSlice_map]
  · simp [forecastSpec, autoregressiveSpec_length]
  · intro v hv
    obtain ⟨u, _, rfl⟩ := List.mem_map.mp hv
    exact le_max_left 0 u

/-- Claim C1 witness: a concrete trained engine, an 8-point series, 2 days. -/
theorem forecast_autoregressive_witness :
    (([(1 : ℚ), 0, 0, 0, 0, 0, 0].length = 7) ∧ 7 ≤ series8.length ∧ 1 ≤ 2)
    ∧ (TimeSeriesPredictor.predict
          ⟨"lstm", some ⟨0, 1⟩, some (.fitted ⟨[(1 : ℚ), 0, 0, 0, 0, 0, 0], 0⟩)⟩ series8 2
        = .ok (forecastSpec ⟨[(1 : ℚ), 0, 0, 0, 0, 0, 0], 0⟩ ⟨0, 1⟩ series8 2)
      ∧ (forecastSpec ⟨[(1 : ℚ), 0, 0, 0, 0, 0, 0], 0⟩ ⟨0, 1⟩ series8 2).length = 2
      ∧ ∀ v ∈ forecastSpec ⟨[(1 : ℚ), 0, 0, 0, 0, 0, 0], 0⟩ ⟨0, 1⟩ series8 2, 0 ≤ v) :=
  ⟨⟨by decide, by decide, by decide⟩,
    forecast_autoregressive "lstm" ⟨0, 1⟩ ⟨[(1 : ℚ), 0, 0, 0, 0, 0, 0], 0⟩ series8 2
      (by decide) (by decide) (by decide)⟩

/-- Claim C2 (amended): `predict` performs no explicit short-series check; on a
trained engine a series shorter than the 7-value lookback makes the regressor
call fail with the library shape/feature-count error, not with
`InsufficientDataError`. -/
theorem forecast_short_series (mt : String) (sc : Scaler) (m : LinearModel)
    (series : List ℚ) (days : ℕ) (hm : m.coef.length = 7)
    (hshort : series.length < 7) (hdays : 1 ≤ days) :
    TimeSeriesPredictor.predict ⟨mt, some sc, some (.fitted m)⟩ series days
      = .error .shapeError := by
  obtain ⟨k, rfl⟩ : ∃ k, days = k + 1 := ⟨days - 1, by omega⟩
  have hw : (tailSlice 7 ((tailSlice 7 series).map sc.transform1)).length
      = series.length := by
    rw [tailSlice_length, List.length_map, tailSlice_length]; omega
  simp only [TimeSeriesPredictor.predict, predictLoop, ModelSlot.predictOne,
    LinearModel.predictOne, hw, hm]
  rw [if_neg (by omega)]

/-- Claim C2 witness: concrete trained engine, 3-point series, 1 day. -/
theorem forecast_short_series_witness :
    (([(0 : ℚ), 0, 0, 0, 0, 0, 0].length = 7) ∧ ([(1 : ℚ), 2, 3].length < 7) ∧ 1 ≤ 1)
    ∧ TimeSeriesPredictor.predict
        ⟨"lstm", some ⟨0, 1⟩, some (.fitted ⟨[(0 : ℚ), 0, 0, 0, 0, 0, 0], 0⟩)⟩ [1, 2, 3] 1
      = .error .shapeError :=
  ⟨⟨by decide, by decide, by decide⟩,
    forecast_short_series "lstm" ⟨0, 1⟩ ⟨[(0 : ℚ), 0, 0, 0, 0, 0, 0], 0⟩ [1, 2, 3] 1
      (by decide) (by decide) (by decide)⟩

/-- Claim C2 counterexample: at a concrete trained engine and 3-point series
the forecast call does not fail with `InsufficientDataError` (it fails with
the library shape error), refuting the claimed explicit check. -/
theorem forecast_short_series_counterexample :
    TimeSeriesPredictor.predict
        ⟨"lstm", some ⟨0, 1⟩, some (.fitted ⟨[(0 : ℚ), 0, 0, 0, 0, 0, 0], 0⟩)⟩ [1, 2, 3] 1
      = .error .shapeError
    ∧ TimeSeriesPredictor.predict
        ⟨"lstm", some ⟨0, 1⟩, some (.fitted ⟨[(0 : ℚ), 0, 0, 0, 0, 0, 0], 0⟩)⟩ [1, 2, 3] 1
      ≠ .error .insufficientData := by
  exact ⟨by decide, by decide⟩

/-- Claim C7 (amended): `train` is total and reports success as a boolean; a
failed train never leaves a *fitted* model installed (though a fit failure
does leave an unfitted instance, so the engine does not return to the
model-is-`None` state), and a forecast call on an engine whose model was
never installed fails with `UntrainedModelError`. -/
theorem train_state_machine (fit_model : FitFn) (mt : String)
    (data series : List ℚ) (days : ℕ) :
    (((TimeSeriesPredictor.init mt).train fit_model data).1 = false →
       ((TimeSeriesPredictor.init mt).train fit_model data).2.hasFittedModel = false)
    ∧ (((TimeSeriesPredictor.init mt).train fit_model data).1 = true →
       ((TimeSeriesPredictor.init mt).train fit_model data).2.hasFittedModel = true)
    ∧ ∀ q : TimeSeriesPredictor, q.model = none →
        q.predict series days = .error .untrainedModel := by
  refine ⟨?_, ?_, ?_⟩
  · rcases h : prepare_data data 7 with e | ⟨sc, X, y⟩
    · simp [TimeSeriesPredictor.train, h, TimeSeriesPredictor.init,
        TimeSeriesPredictor.hasFittedModel]
    · rcases h2 : fit_model X y with e2 | m2 <;>
        simp [TimeSeriesPredictor.train, h, h2, TimeSeriesPredictor.init,
          TimeSeriesPredictor.hasFittedModel]
  · rcases h : prepare_data data 7 with e | ⟨sc, X, y⟩
    · simp [TimeSeriesPredictor.train, h, TimeSeriesPredictor.init,
        TimeSeriesPredictor.hasFittedModel]
    · rcases h2 : fit_model X y with e2 | m2 <;>
        simp [TimeSeriesPredictor.train, h, h2, TimeSeriesPredictor.init,
          TimeSeriesPredictor.hasFittedModel]
  · intro q hq
    rcases q with ⟨qmt, qsc, qmo⟩
    simp only at hq
    subst hq
    rfl

/-- Claim C7 witness: a failing fit on an 8-point series, plus a forecast call
on a never-trained engine. -/
theorem train_state_machine_witness :
    ((((TimeSeriesPredictor.init "lstm").train failFit series8).1 = false)
      ∧ (((TimeSeriesPredictor.init "lstm").train failFit series8).2.hasFittedModel
          = false))
    ∧ ((TimeSeriesPredictor.init "gru").model = none
      ∧ (TimeSeriesPredictor.init "gru").predict series8 1 = .error .untrainedModel) :=
  ⟨⟨by decide, (train_state_machine failFit "lstm" series8 series8 1).1 (by decide)⟩,
    ⟨by decide,
      (train_state_machine failFit "lstm" series8 series8 1).2.2
        (TimeSeriesPredictor.init "gru") (by decide)⟩⟩

/-- Claim C7 counterexample: after a train whose regressor fit fails, the
engine does not remain in the `Untrained` state — `self.model` is no longer
`None` and a forecast does not raise `UntrainedModelError` (it hits the
not-fitted error of the library instead). -/
theorem train_failure_not_untrained :
    (((TimeSeriesPredictor.init "lstm").train failFit series8).1 = false)
    ∧ (((TimeSeriesPredictor.init "lstm").train failFit series8).2.model ≠ none)
    ∧ (((TimeSeriesPredictor.init "lstm").train failFit series8).2.predict series8 1
        ≠ .error .untrainedModel)
    ∧ (((TimeSeriesPredictor.init "lstm").train failFit series8).2.predict series8 1
        = .error .notFitted) := by
  exact ⟨by decide, by decide, by decide, by decide⟩

/-- Claim C3 (amended): the single-metric flow rejects fewer than 14 records
with HTTP 400 before any training; the batch flow, however, only rejects an
empty record list — any nonempty `historicalData` is never rejected with 400,
regardless of being under 14 records. -/
theorem minimum_records_validation (fit_model : FitFn) (mt mdl : String)
    (metrics : List String) (days : ℕ) (hist : List HistRecord) :
    (hist.length < 14 →
       (predictRoute fit_model mt mdl days hist).1.is400 = true
       ∧ (predictRoute fit_model mt mdl days hist).2 = 0)
    ∧ (hist = [] → (predict_batch fit_model metrics days hist).1 = .err400 .emptyData)
    ∧ (hist ≠ [] → (predict_batch fit_model metrics days hist).1.is400 = false) := by
  refine ⟨?_, ?_, ?_⟩
  · intro hlen
    by_cases h : hist = []
    · simp [predictRoute, h, Resp.is400]
    · simp [predictRoute, h, hlen, Resp.is400]
  · intro h
    simp [predict_batch, h]
  · intro h
    simp [predict_batch, h, Resp.is400]

/-- Claim C3 witness: 5 records — the single-metric flow rejects with 400 and
zero `train` calls; the same nonempty list is not rejected by the batch
flow. -/
theorem minimum_records_validation_witness :
    (hist5.length < 14
      ∧ (predictRoute constFit "pv" "lstm" 2 hist5).1.is400 = true
      ∧ (predictRoute constFit "pv" "lstm" 2 hist5).2 = 0)
    ∧ (hist5 ≠ []
      ∧ (predict_batch constFit ["pv"] 2 hist5).1.is400 = false) :=
  ⟨⟨by decide,
      (minimum_records_validation constFit "pv" "lstm" ["pv"] 2 hist5).1 (by decide)⟩,
    ⟨by decide,
      (minimum_records_validation constFit "pv" "lstm" ["pv"] 2 hist5).2.2 (by decide)⟩⟩

/-- Claim C3 counterexample: a batch request with only 10 historical records is
not rejected, and a model *is* trained (one `train` invocation), refuting the
claim that both flows require 14 records before training. -/
theorem batch_accepts_under_14_records :
    hist10.length = 10
    ∧ (predict_batch constFit ["pv"] 2 hist10).1.is400 = false
    ∧ (predict_batch constFit ["pv"] 2 hist10).2 = 1 := by
  exact ⟨by decide, by decide, by decide⟩

/-- Claim C4 (amended): the entry of each metric in the batch results is exactly the
outcome of its own isolated pipeline run (`runMetric`), so a failure of one metric never affects a sibling; a pipeline failure that raises is recorded
as an explicit `null`, but a training failure reported as boolean `False`
leaves the metric key absent from the results map entirely. -/
theorem batch_per_metric_isolation (fit_model : FitFn) (days : ℕ)
    (hist : List HistRecord) (metrics : List String) (m : String) :
    (dictLookup (batchResults fit_model days hist metrics).1 m
       = if m ∈ metrics then (runMetric fit_model days hist m).1 else none)
    ∧ (∀ e, resolveMetric m hist = .error e →
        (runMetric fit_model days hist m).1 = some none)
    ∧ (∀ s, resolveMetric m hist = .ok s →
        ((TimeSeriesPredictor.init "lstm").train fit_model s).1 = false →
        (runMetric fit_model days hist m).1 = none) := by
  refine ⟨?_, ?_, ?_⟩
  · induction metrics with
    | nil => simp [batchResults, dictLookup]
    | cons mh rest ih =>
      by_cases hm : mh = m
      · subst hm
        rcases hr : (runMetric fit_model days hist mh).1 with _ | v <;>
          simp [batchResults, dictLookup, hr, ih]
      · rcases hr : (runMetric fit_model days hist mh).1 with _ | v <;>
          simp [batchResults, dictLookup, hr, ih, hm, Ne.symm hm]
  · intro e he
    simp [runMetric, he]
  · intro s hs hfalse
    simp [runMetric, hs, hfalse]

/-- Claim C4 witness: metric `pv` over five records — the pipeline resolves,
training reports failure, and the metric produces no results entry. -/
theorem batch_per_metric_isolation_witness :
    (resolveMetric "pv" hist5 = .ok (hist5.map fun r => r.getF "pv")
      ∧ ((TimeSeriesPredictor.init "lstm").train constFit
          (hist5.map fun r => r.getF "pv")).1 = false)
    ∧ (runMetric constFit 2 hist5 "pv").1 = none :=
  ⟨⟨by rfl, by decide⟩,
    (batch_per_metric_isolation constFit 2 hist5 ["pv"] "pv").2.2
      (hist5.map fun r => r.getF "pv") (by rfl) (by decide)⟩

/-- Claim C4 counterexample: in a concrete batch request where training for the only metric fails, the results map has *no* entry for that metric (the whole
response is `okBatch []`), not a `null` entry as claimed. -/
theorem batch_training_failure_not_null :
    (((TimeSeriesPredictor.init "lstm").train constFit
        (hist5.map fun r => r.getF "pv")).1 = false)
    ∧ dictLookup (batchResults constFit 2 hist5 ["pv"]).1 "pv" = none
    ∧ (predict_batch constFit ["pv"] 2 hist5).1 = .okBatch [] := by
  exact ⟨by decide, by decide, by decide⟩

/-- Claim C5: window building on a normalized series of length `L` fails with
`InsufficientDataError` when `L < 8`, and otherwise yields exactly `L - 7`
chronologically ordered pairs with input `series[i-7:i]` and target
`series[i]` for `i ∈ [7, L)` (stated with `i = k + 7`, `k < L - 7`). -/
theorem window_build_pairs (series : List ℚ) :
    (series.length < 8 →
       windowBuild series 7 = .error .insufficientData
       ∧ prepare_data series 7 = .error .insufficientData)
    ∧ (8 ≤ series.length →
       windowBuild series 7 = .ok (buildWindows series 7)
       ∧ (buildWindows series 7).1.length = series.length - 7
       ∧ (buildWindows series 7).2.length = series.length - 7
       ∧ ∀ k, k < series.length - 7 →
           (buildWindows series 7).1.getD k [] = (series.drop k).take 7
           ∧ (buildWindows series 7).2.getD k 0 = series.getD (k + 7) 0) := by
  constructor
  · intro h
    constructor
    · unfold windowBuild
      rw [if_pos (by omega)]
    · unfold prepare_data
      rw [if_pos (by omega)]
  · intro h
    refine ⟨?_, ?_, ?_, ?_⟩
    · unfold windowBuild
      rw [if_neg (by omega)]
    · simp [buildWindows]
    · simp [buildWindows]
    · intro k hk
      constructor
      · simp only [buildWindows]
        exact getD_map_range _ k _ _ hk
      · simp only [buildWindows]
        exact getD_map_range _ k _ _ hk

/-- Claim C5 witness: a 3-point series fails, a 9-point series yields two
pairs with the stated slices. -/
theorem window_build_pairs_witness :
    (([(0 : ℚ), 1, 2].length < 8)
      ∧ (windowBuild [(0 : ℚ), 1, 2] 7 = .error .insufficientData
        ∧ prepare_data [(0 : ℚ), 1, 2] 7 = .error .insufficientData))
    ∧ (8 ≤ series9.length
      ∧ (windowBuild series9 7 = .ok (buildWindows series9 7)
        ∧ (buildWindows series9 7).1.length = series9.length - 7
        ∧ (buildWindows series9 7).2.length = series9.length - 7
        ∧ ∀ k, k < series9.length - 7 →
            (buildWindows series9 7).1.getD k [] = (series9.drop k).take 7
            ∧ (buildWindows series9 7).2.getD k 0 = series9.getD (k + 7) 0)) :=
  ⟨⟨by decide, (window_build_pairs [0, 1, 2]).1 (by decide)⟩,
    ⟨by decide, (window_build_pairs series9).2 (by decide)⟩⟩

/-- Claim C6: for every series, inverse-transforming its fit-transform returns
the series exactly (the embedding computes in exact rational arithmetic, so
"within floating-point tolerance" strengthens to equality), and in the
degenerate min==max case the scale denominator is replaced by 1, making the
transform the identity offset `v - min` with no division by zero. -/
theorem scaler_round_trip (xs : List ℚ) :
    ((xs.map (Scaler.fitList xs).transform1).map (Scaler.fitList xs).inverse1) = xs
    ∧ ((Scaler.fitList xs).dataMin = (Scaler.fitList xs).dataMax →
        ∀ v : ℚ, (Scaler.fitList xs).transform1 v = v - (Scaler.fitList xs).dataMin) := by
  constructor
  · exact map_inverse1_map_transform1 _ xs
  · intro h v
    have hr : (Scaler.fitList xs).range1 = 1 := by
      unfold Scaler.range1
      rw [if_pos (by rw [← h, sub_self])]
    simp [Scaler.transform1, hr]

/-- Claim C6 witness: the constant series `[3, 3]` has min = max; the
transform at `v = 7` is the identity offset. -/
theorem scaler_round_trip_witness :
    ((Scaler.fitList [(3 : ℚ), 3]).dataMin = (Scaler.fitList [(3 : ℚ), 3]).dataMax)
    ∧ (Scaler.fitList [(3 : ℚ), 3]).transform1 7 = 7 - (Scaler.fitList [(3 : ℚ), 3]).dataMin :=
  ⟨by decide, (scaler_round_trip [3, 3]).2 (by decide) 7⟩

/-- Claim C9: conversion-rate derivation demands equal-length pv and uv series
(else `LengthMismatchError`); on equal lengths the per-day value is `uv/pv`
when `pv > 0` and `0` otherwise — in particular `pv=[0,100]`, `uv=[0,50]`
yields `[0, 1/2]`. -/
theorem conversion_rate_rule (pv_data uv_data : List ℚ) :
    (pv_data.length = uv_data.length →
       calculate_conversion_rate pv_data uv_data
         = .ok ((pv_data.zip uv_data).map fun t => if t.1 > 0 then t.2 / t.1 else 0)
       ∧ ∀ i, i < pv_data.length →
           ((pv_data.zip uv_data).map fun t => if t.1 > 0 then t.2 / t.1 else 0).getD i 0
             = if 0 < pv_data.getD i 0 then uv_data.getD i 0 / pv_data.getD i 0 else 0)
    ∧ (pv_data.length ≠ uv_data.length →
       calculate_conversion_rate pv_data uv_data = .error .lengthMismatch)
    ∧ calculate_conversion_rate [0, 100] [0, 50] = .ok [0, 1 / 2] := by
  refine ⟨?_, ?_, ?_⟩
  · intro h
    constructor
    · unfold calculate_conversion_rate
      rw [if_neg (by omega)]
    · intro i hi
      exact getD_zip_map _ pv_data uv_data i h hi
  · intro h
    unfold calculate_conversion_rate
    rw [if_pos h]
  · unfold calculate_conversion_rate
    norm_num

/-- Claim C9 witness: the example given in the spec, lengths equal. -/
theorem conversion_rate_rule_witness :
    ([(0 : ℚ), 100].length = [(0 : ℚ), 50].length)
    ∧ (calculate_conversion_rate [0, 100] [0, 50]
        = .ok (([(0 : ℚ), 100].zip [(0 : ℚ), 50]).map fun t => if t.1 > 0 then t.2 / t.1 else 0)
      ∧ ∀ i, i < [(0 : ℚ), 100].length →
          (([(0 : ℚ), 100].zip [(0 : ℚ), 50]).map fun t => if t.1 > 0 then t.2 / t.1 else 0).getD i 0
            = if 0 < [(0 : ℚ), 100].getD i 0
              then [(0 : ℚ), 50].getD i 0 / [(0 : ℚ), 100].getD i 0 else 0) :=
  ⟨by decide, (conversion_rate_rule [0, 100] [0, 50]).1 (by decide)⟩

/-- Claim C10: both endpoints extract the pv and uv series element-wise from
the same record list, so the two series always have equal length and the
conversion-rate derivation invoked by the endpoints always succeeds — its
length-mismatch branch is unreachable from them. -/
theorem conversion_rate_inputs_equal_length (hist : List HistRecord) :
    (hist.map fun r => r.getF "pv").length = (hist.map fun r => r.getF "uv").length
    ∧ resolveMetric "conversion_rate" hist
        = .ok (((hist.map fun r => r.getF "pv").zip (hist.map fun r => r.getF "uv")).map
            fun t => if t.1 > 0 then t.2 / t.1 else 0) := by
  constructor
  · simp
  · unfold resolveMetric
    rw [if_pos rfl]
    unfold calculate_conversion_rate
    rw [if_neg (by simp)]

/-- Claim C8: the future-date generation of the endpoints parses the date of
the last record by the exact ordered format list of the spec with first-match acceptance,
falls back to stripping at the first 'T' or space and retrying as a plain
date, fails with `DateParseError` only when that also fails, and on success
returns `days` plain-formatted dates `last_date + 1 .. last_date + days`;
in particular `"2024-01-15T10:30:00.000Z"` with `days = 3` yields
`["2024-01-16", "2024-01-17", "2024-01-18"]`. -/
theorem date_generation_order (s0 : String) (days0 : ℕ) :
    parseLastDate s0 = parseLastDateSpec s0
    ∧ generateDates s0 days0
        = (match parseLastDateSpec s0 with
           | none => .error .dateParse
           | some d => .ok ((List.range days0).map fun i => formatDate (d.addDays (i + 1))))
    ∧ generateDates "2024-01-15T10:30:00.000Z" 3
        = .ok ["2024-01-16", "2024-01-17", "2024-01-18"] := by
  have hstrip : stripDatePart s0
      = String.mk (s0.toList.takeWhile fun c => !(c = 'T') && !(c = ' ')) := by
    unfold stripDatePart splitHead
    congr 1
    rw [show (String.mk (s0.toList.takeWhile fun x => x ≠ 'T')).toList
        = s0.toList.takeWhile fun x => x ≠ 'T' from rfl]
    rw [takeWhile_takeWhile_and]
    simp only [decide_not]
  have hparse : parseLastDate s0 = parseLastDateSpec s0 := by
    simp only [parseLastDate, date_formats, tryFormatsFirst, parseLastDateSpec, hstrip]
    cases strptimeFmt .ymd s0 <;> cases strptimeFmt .isoNoFrac s0 <;>
      cases strptimeFmt .isoFrac s0 <;> cases strptimeFmt .isoFracZ s0 <;>
      cases strptimeFmt .spaceDT s0 <;> rfl
  refine ⟨hparse, ?_, by decide⟩
  unfold generateDates
  rw [hparse]

end MlService
